import Mathlib

/-!
Shallow embedding of the reading-tracker backend (books + reading sessions
CRUD with book-progress reconciliation, `app/crud/reading_session.py`,
`app/api/endpoints/sessions.py`, `app/schemas/reading_session.py`) and of the
frontend process supervisor (`scripts/frontend_manager.py`).

Modelling conventions:
- `datetime` values are modelled as integer timestamps (whole seconds, `Int`);
  Python's `int(delta.total_seconds() / 60)` truncates toward zero, which on
  whole-second deltas is `Int.tdiv _ 60`.
- Python `int` is unbounded, so pages and ids are `Int`.
- The SQLAlchemy identity-keyed queries (`.filter(Model.id == x).first()`)
  are modelled by keyed lookup in an association list; the database is a pair
  of such lists (books, sessions).
- An ORM attribute can hold `None` in memory even when its column is
  `nullable=False` (the failure would only surface at commit), so the
  in-memory `pages_read` attribute of a session row is an `Option Int`.
-/

namespace ReadingTracker

/-- `BookStatus` enum from `app/models/book.py`. -/
inductive BookStatus
  | want_to_read
  | reading
  | completed
deriving DecidableEq, Repr

/-- `Book` ORM model from `app/models/book.py` (mutable columns). -/
structure Book where
  title : String
  author : String
  isbn : Option String
  total_pages : Int
  current_page : Int
  status : BookStatus
  date_added : Int
  date_started : Option Int
  date_finished : Option Int
  rating : Option Int
  notes : Option String
deriving DecidableEq, Repr

/-- `ReadingSession` ORM model from `app/models/reading_session.py`.
`pages_read` is `Option Int` because the in-memory attribute can be assigned
`None` by a sparse update even though the column is `nullable=False`. -/
structure ReadingSession where
  book_id : Int
  start_time : Int
  end_time : Option Int
  pages_read : Option Int
  notes : Option String
  created_at : Int
deriving DecidableEq, Repr

/-- Keyed lookup, modelling `db.query(M).filter(M.id == k).first()`. -/
def lookupId (k : Int) : List (Int × α) → Option α
  | [] => none
  | (k', v) :: rest => if k' = k then some v else lookupId k rest

/-- Replace the (first) row with key `k` by `v`, modelling an ORM in-place
row mutation followed by `db.commit()`. -/
def updateId (k : Int) (v : α) : List (Int × α) → List (Int × α)
  | [] => []
  | (k', v') :: rest => if k' = k then (k, v) :: rest else (k', v') :: updateId k v rest

/-- The relational store the session CRUD operates on. -/
structure DB where
  books : List (Int × Book)
  sessions : List (Int × ReadingSession)
deriving DecidableEq, Repr

/-- `SessionCreate` schema from `app/schemas/reading_session.py`
(`start_time` required, `pages_read` required with `ge=0`, optional notes). -/
structure SessionCreate where
  start_time : Int
  pages_read : Int
  notes : Option String
deriving DecidableEq, Repr

/-- `SessionUpdate` schema from `app/schemas/reading_session.py`. All three
fields are optional; `model_dump(exclude_unset=True)` distinguishes a field
the caller omitted (outer `none`) from a field explicitly supplied (outer
`some`), whose payload may itself be null (inner `none`). -/
structure SessionUpdate where
  end_time : Option (Option Int)
  pages_read : Option (Option Int)
  notes : Option (Option String)
deriving DecidableEq, Repr

/-- `create_session` from `app/crud/reading_session.py` (lines 10-41): look
up the book (`None` if missing), insert the new session row, accumulate
`current_page`, run the `want_to_read -> reading` branch and then the
completion check against the already-updated `current_page`, commit.
`newId` is the autoincrement id assigned to the new row and `createdAt` the
`server_default=func.now()` timestamp. -/
def create_session (db : DB) (newId createdAt : Int) (book_id : Int)
    (d : SessionCreate) : Option (DB × ReadingSession) :=
  match lookupId book_id db.books with
  | none => none
  | some book =>
    let s : ReadingSession :=
      { book_id := book_id, start_time := d.start_time, end_time := none,
        pages_read := some d.pages_read, notes := d.notes, created_at := createdAt }
    let book1 := { book with current_page := book.current_page + d.pages_read }
    let book2 :=
      if book1.status = BookStatus.want_to_read then
        { book1 with
          status := BookStatus.reading,
          date_started :=
            if book1.date_started.isNone then some d.start_time else book1.date_started }
      else book1
    let book3 :=
      if book2.current_page ≥ book2.total_pages then
        { book2 with
          status := BookStatus.completed,
          date_finished :=
            if book2.date_finished.isNone then some d.start_time else book2.date_finished }
      else book2
    some ({ books := updateId book_id book3 db.books,
            sessions := db.sessions ++ [(newId, s)] }, s)

/-- `end_session` from `app/crud/reading_session.py` (lines 56-63). The body
mutates the row only when it exists *and* `end_time is None`; in every case it
returns whatever the id lookup produced, so an already-ended session is
returned unchanged (not `None`). `end_time.getD now` models
`end_time or datetime.now()`. -/
def end_session (db : DB) (session_id : Int) (end_time : Option Int)
    (now : Int) : DB × Option ReadingSession :=
  match lookupId session_id db.sessions with
  | none => (db, none)
  | some s =>
    if s.end_time = none then
      let s' := { s with end_time := some (end_time.getD now) }
      ({ db with sessions := updateId session_id s' db.sessions }, some s')
    else
      (db, some s)

/-- The `setattr` loop of `update_session`: apply exactly the fields present
in `session_update.model_dump(exclude_unset=True)`. -/
def apply_update (s : ReadingSession) (u : SessionUpdate) : ReadingSession :=
  let s1 := match u.end_time with
    | none => s
    | some v => { s with end_time := v }
  let s2 := match u.pages_read with
    | none => s1
    | some v => { s1 with pages_read := v }
  match u.notes with
  | none => s2
  | some v => { s2 with notes := v }

/-- `update_session` from `app/crud/reading_session.py` (lines 66-75): look
up the session, apply the explicitly supplied fields, commit. Returns `none`
only when the session id does not resolve. -/
def update_session (db : DB) (session_id : Int) (u : SessionUpdate) :
    DB × Option ReadingSession :=
  match lookupId session_id db.sessions with
  | none => (db, none)
  | some s =>
    let s' := apply_update s u
    ({ db with sessions := updateId session_id s' db.sessions }, some s')

/-- `Session.duration_minutes` computed field from
`app/schemas/reading_session.py` (lines 29-36): `None` while active,
otherwise `int(delta.total_seconds() / 60)` (truncation toward zero). -/
def duration_minutes (s : ReadingSession) : Option Int :=
  match s.end_time with
  | some e => some ((e - s.start_time).tdiv 60)
  | none => none

/-- `Session.is_active` computed field from `app/schemas/reading_session.py`
(lines 38-42): true iff `end_time` is unset. -/
def is_active (s : ReadingSession) : Bool :=
  s.end_time.isNone

/-- Result of an HTTP handler: a status code with a payload, or a status code
with an error detail string. -/
inductive ApiResult (α : Type)
  | ok (code : Nat) (val : α)
  | err (code : Nat) (detail : String)
deriving DecidableEq, Repr

/-- `end_reading_session` handler from `app/api/endpoints/sessions.py`
(lines 70-80): 404 with detail "Reading session not found or already ended"
exactly when the CRUD call returned `None`, else 200 with the session. -/
def end_reading_session (db : DB) (session_id : Int) (end_time : Option Int)
    (now : Int) : DB × ApiResult ReadingSession :=
  let r := end_session db session_id end_time now
  match r.2 with
  | none => (r.1, ApiResult.err 404 "Reading session not found or already ended")
  | some s => (r.1, ApiResult.ok 200 s)

/-! ### Process supervisor (`scripts/frontend_manager.py`)

Timestamps (`time.time()`) are modelled as `Int` seconds. The monitoring loop
is modelled over the sequence of child-exit events it observes. -/

/-- `MAX_RESTART_ATTEMPTS = 5` from `scripts/frontend_manager.py`. -/
def MAX_RESTART_ATTEMPTS : Nat := 5

/-- `RESTART_WINDOW = 60` seconds from `scripts/frontend_manager.py`. -/
def RESTART_WINDOW : Int := 60

/-- `FrontendManager.should_restart` (lines 133-162): prune
`restart_attempts` to timestamps within the last `RESTART_WINDOW` seconds,
append the current time, then refuse iff more than `MAX_RESTART_ATTEMPTS`
attempts are in the window. Uptime is only logged (the "fast crash" warning)
and never changes the decision, so it is not a parameter here. Returns the
updated `restart_attempts` list and the decision. -/
def should_restart (attempts : List Int) (now : Int) : List Int × Bool :=
  let pruned := attempts.filter (fun t => now - t < RESTART_WINDOW)
  let updated := pruned ++ [now]
  (updated, if updated.length > MAX_RESTART_ATTEMPTS then false else true)

/-- One observable step of the monitoring loop: after the child exits at
`exitTime`, either sleep `backoff` seconds and relaunch, or give up. -/
inductive LoopStep
  | restartAfter (exitTime : Int) (backoff : Int)
  | giveUp (exitTime : Int)
deriving DecidableEq, Repr

/-- Outcome of running `FrontendManager.run_monitoring_loop` over a sequence
of child-exit events: the trace of restart decisions and whether the loop
exited and removed the PID file (lines 245-275; after the `break` the loop
calls `self.remove_pid()`). `pidFileRemoved = false` means the exit-event
list was exhausted with the loop still monitoring a live child. -/
structure LoopOutcome where
  steps : List LoopStep
  pidFileRemoved : Bool
deriving DecidableEq, Repr

/-- `FrontendManager.run_monitoring_loop` (lines 245-275) over the child-exit
times it observes: launch the child, block until it exits, consult
`should_restart`; on `true` sleep the fixed `wait_time = 2` seconds and
relaunch, on `false` break out, remove the PID file and terminate. -/
def run_monitoring_loop (attempts : List Int) : List Int → LoopOutcome
  | [] => ⟨[], false⟩
  | t :: rest =>
    let r := should_restart attempts t
    if r.2 then
      let o := run_monitoring_loop r.1 rest
      ⟨LoopStep.restartAfter t 2 :: o.steps, o.pidFileRemoved⟩
    else
      ⟨[LoopStep.giveUp t], true⟩

/-- The world `FrontendManager.stop_daemon` observes: the PID file contents
(`none` when absent or unreadable), liveness of the recorded process at the
initial `is_process_running` check, liveness at each of the 10 post-SIGTERM
polls, and liveness after a SIGKILL. -/
structure StopWorld where
  pidFile : Option Int
  aliveNow : Bool
  aliveAtPoll : Nat → Bool
  aliveAfterKill : Bool

/-- What `stop_daemon` reports (its `print` branches / return value). -/
inductive StopReport
  | notRunning
  | stale (pid : Int)
  | stoppedGracefully (pid : Int)
  | stoppedForced (pid : Int)
  | failed (pid : Int)
deriving DecidableEq, Repr

/-- `signal.SIGTERM` / `signal.SIGKILL` numbers. -/
def SIGTERM : Nat := 15
def SIGKILL : Nat := 9

/-- `FrontendManager.stop_daemon` (lines 277-323): read the PID file (`not
pid` is true for a missing file and for pid 0, and reports "not running"
without touching the file); if the process is not alive report the stale PID
and remove the file, sending no signal; otherwise send SIGTERM, poll up to 10
times for exit, and fall back to SIGKILL. Returns the report, the PID file
contents afterwards, and the list of `(pid, signal)` pairs sent. The race
where the process dies between the liveness check and `os.kill` (the
`ProcessLookupError` handler) is not modelled: liveness is read from the
world, which does not change during the call except through the signals
sent. -/
def stop_daemon (w : StopWorld) : StopReport × Option Int × List (Int × Nat) :=
  match w.pidFile with
  | none => (StopReport.notRunning, none, [])
  | some pid =>
    if pid = 0 then (StopReport.notRunning, some pid, [])
    else if ¬ w.aliveNow then (StopReport.stale pid, none, [])
    else
      match (List.range 10).find? (fun i => ! w.aliveAtPoll i) with
      | some _ => (StopReport.stoppedGracefully pid, none, [(pid, SIGTERM)])
      | none =>
        if ¬ w.aliveAfterKill then
          (StopReport.stoppedForced pid, none, [(pid, SIGTERM), (pid, SIGKILL)])
        else
          (StopReport.failed pid, some pid, [(pid, SIGTERM), (pid, SIGKILL)])

/-! ### Helper lemmas about keyed lookup and update -/

theorem lookupId_updateId_self (k : Int) (v : α) (l : List (Int × α))
    (h : (lookupId k l).isSome) : lookupId k (updateId k v l) = some v := by
  induction l with
  | nil => simp [lookupId] at h
  | cons p rest ih =>
    obtain ⟨k', v'⟩ := p
    by_cases hk : k' = k
    · simp [updateId, hk, lookupId]
    · simp only [updateId, if_neg hk, lookupId] at h ⊢
      exact ih h

theorem lookupId_updateId_ne (k k' : Int) (v : α) (l : List (Int × α))
    (h : k' ≠ k) : lookupId k' (updateId k v l) = lookupId k' l := by
  induction l with
  | nil => rfl
  | cons p rest ih =>
    obtain ⟨k0, v0⟩ := p
    by_cases hk : k0 = k
    · subst hk
      simp only [updateId, if_pos rfl, lookupId]
      rw [if_neg (fun hc => h hc.symm), if_neg (fun hc => h hc.symm)]
    · simp only [updateId, if_neg hk, lookupId]
      by_cases hk' : k0 = k'
      · rw [if_pos hk', if_pos hk']
      · rw [if_neg hk', if_neg hk']
        exact ih

/-! ### Claims -/

/-- C1 (code_bug evidence): ending a session a second time does NOT report
failure. Starting from an active session, the first end call returns
HTTP 200 and sets `end_time`; the second call on the now-ended session
returns HTTP 200 again with the session unchanged (`end_time` still the
value set by the first call), instead of the 404 "Reading session not found
or already ended" the handler's own error detail promises for the
already-ended cause: `end_session` returns the row, not `None`, when
`end_time` is already set, so the handler's `None` check never fires. -/
theorem c1_end_twice_returns_ok_not_404 :
    (end_reading_session
      { books := [],
        sessions := [(7, { book_id := 1, start_time := 0, end_time := none,
                           pages_read := some 10, notes := none, created_at := 0 })] }
      7 (some 100) 100).2 =
      ApiResult.ok 200 { book_id := 1, start_time := 0, end_time := some 100,
                         pages_read := some 10, notes := none, created_at := 0 } ∧
    (end_reading_session
      (end_reading_session
        { books := [],
          sessions := [(7, { book_id := 1, start_time := 0, end_time := none,
                             pages_read := some 10, notes := none, created_at := 0 })] }
        7 (some 100) 100).1
      7 none 500).2 =
      ApiResult.ok 200 { book_id := 1, start_time := 0, end_time := some 100,
                         pages_read := some 10, notes := none, created_at := 0 } ∧
    lookupId 7 (end_reading_session
      (end_reading_session
        { books := [],
          sessions := [(7, { book_id := 1, start_time := 0, end_time := none,
                             pages_read := some 10, notes := none, created_at := 0 })] }
        7 (some 100) 100).1
      7 none 500).1.sessions =
      some { book_id := 1, start_time := 0, end_time := some 100,
             pages_read := some 10, notes := none, created_at := 0 } := by
  refine ⟨rfl, rfl, rfl⟩

/-- C3: creating a session with `pages_read = p` on an existing book with
`current_page = c` leaves the book with `current_page = c + p`, with no
clamping to `total_pages` (the stored value keeps any overshoot), for every
non-negative `p`. -/
theorem c3_create_session_accumulates (db : DB) (newId createdAt book_id : Int)
    (b : Book) (d : SessionCreate)
    (hb : lookupId book_id db.books = some b) (_hp : 0 ≤ d.pages_read) :
    ∃ db' s, create_session db newId createdAt book_id d = some (db', s) ∧
      ∃ b', lookupId book_id db'.books = some b' ∧
        b'.current_page = b.current_page + d.pages_read := by
  have hsome : (lookupId book_id db.books).isSome := by rw [hb]; rfl
  unfold create_session
  rw [hb]
  refine ⟨_, _, rfl, _, lookupId_updateId_self _ _ _ hsome, ?_⟩
  simp [apply_ite Book.current_page]

/-- Sample book for the C3 witness: 250 pages, currently at page 200. -/
def c3Book : Book :=
  { title := "t", author := "a", isbn := none, total_pages := 250,
    current_page := 200, status := BookStatus.reading, date_added := 0,
    date_started := some 0, date_finished := none, rating := none,
    notes := none }

/-- Sample store for the C3 witness. -/
def c3DB : DB := { books := [(1, c3Book)], sessions := [] }

/-- C3 witness: a 250-page book at page 200 receives a 100-page session and
ends at `current_page = 300`, past `total_pages`. -/
theorem c3_witness :
    lookupId 1 c3DB.books = some c3Book ∧ (0 : Int) ≤ 100 ∧
    (∃ db' s, create_session c3DB 1 0 1
        { start_time := 50, pages_read := 100, notes := none } = some (db', s) ∧
      ∃ b', lookupId 1 db'.books = some b' ∧
        b'.current_page = c3Book.current_page + 100) :=
  ⟨by decide, by decide,
    c3_create_session_accumulates c3DB 1 0 1 c3Book
      { start_time := 50, pages_read := 100, notes := none } (by decide) (by decide)⟩

/-- C5: neither ending a session nor updating a session modifies any book:
the `books` component of the store is unchanged by `end_session` and by
`update_session` (in particular editing `pages_read` after the fact does not
re-reconcile the book's `current_page`, `status` or dates). -/
theorem c5_session_ops_preserve_books (db : DB) (sid : Int) (et : Option Int)
    (now : Int) (u : SessionUpdate) :
    (end_session db sid et now).1.books = db.books ∧
    (update_session db sid u).1.books = db.books := by
  constructor
  · unfold end_session
    cases lookupId sid db.sessions with
    | none => rfl
    | some s =>
      dsimp only
      split <;> rfl
  · unfold update_session
    cases lookupId sid db.sessions with
    | none => rfl
    | some s => rfl

/-- C2: a `want_to_read` book whose new session makes
`current_page + pages_read >= total_pages` ends the call with status
`completed` (the `want_to_read -> reading` branch fires first, then the
completion check against the already-updated `current_page`), and
`date_started` / `date_finished`, when previously unset, are both set to the
session's `start_time`. -/
theorem c2_first_session_completes_book (db : DB) (newId createdAt book_id : Int)
    (b : Book) (d : SessionCreate)
    (hb : lookupId book_id db.books = some b)
    (hst : b.status = BookStatus.want_to_read)
    (hfin : b.current_page + d.pages_read ≥ b.total_pages) :
    ∃ db' s, create_session db newId createdAt book_id d = some (db', s) ∧
      s.start_time = d.start_time ∧
      ∃ b', lookupId book_id db'.books = some b' ∧
        b'.status = BookStatus.completed ∧
        (b.date_started = none → b'.date_started = some d.start_time) ∧
        (b.date_finished = none → b'.date_finished = some d.start_time) := by
  have hsome : (lookupId book_id db.books).isSome := by rw [hb]; rfl
  unfold create_session
  rw [hb]
  refine ⟨_, _, rfl, rfl, _, lookupId_updateId_self _ _ _ hsome, ?_, ?_, ?_⟩
  · simp [hst, hfin]
  · intro h
    simp [hst, hfin, h]
  · intro h
    simp [hst, hfin, h]

/-- Sample book for the C2 witness: fresh 100-page `want_to_read` book with
no dates set. -/
def c2Book : Book :=
  { title := "t", author := "a", isbn := none, total_pages := 100,
    current_page := 0, status := BookStatus.want_to_read, date_added := 0,
    date_started := none, date_finished := none, rating := none,
    notes := none }

/-- Sample store for the C2 witness. -/
def c2DB : DB := { books := [(1, c2Book)], sessions := [] }

/-- C2 witness: a single 120-page session at `start_time = 40` on a fresh
100-page `want_to_read` book. -/
theorem c2_witness :
    lookupId 1 c2DB.books = some c2Book ∧
    c2Book.status = BookStatus.want_to_read ∧
    c2Book.current_page + 120 ≥ c2Book.total_pages ∧
    (∃ db' s, create_session c2DB 1 0 1
        { start_time := 40, pages_read := 120, notes := none } = some (db', s) ∧
      s.start_time = 40 ∧
      ∃ b', lookupId 1 db'.books = some b' ∧
        b'.status = BookStatus.completed ∧
        (c2Book.date_started = none → b'.date_started = some 40) ∧
        (c2Book.date_finished = none → b'.date_finished = some 40)) :=
  ⟨by decide, by decide, by decide,
    c2_first_session_completes_book c2DB 1 0 1 c2Book
      { start_time := 40, pages_read := 120, notes := none }
      (by decide) (by decide) (by decide)⟩

/-- C6: `update_session` applies exactly the fields the caller explicitly
supplied (outer `some`, even when the supplied payload is null) and leaves
every omitted field (outer `none`) unchanged; fields that cannot be supplied
(`book_id`, `start_time`, `created_at`) and every other session row are
untouched. -/
theorem c6_update_session_is_sparse (db : DB) (sid : Int) (s : ReadingSession)
    (u : SessionUpdate) (hs : lookupId sid db.sessions = some s) :
    ∃ s', (update_session db sid u).2 = some s' ∧
      lookupId sid (update_session db sid u).1.sessions = some s' ∧
      s'.end_time = u.end_time.getD s.end_time ∧
      s'.pages_read = u.pages_read.getD s.pages_read ∧
      s'.notes = u.notes.getD s.notes ∧
      s'.book_id = s.book_id ∧
      s'.start_time = s.start_time ∧
      s'.created_at = s.created_at ∧
      ∀ sid', sid' ≠ sid →
        lookupId sid' (update_session db sid u).1.sessions =
          lookupId sid' db.sessions := by
  have hsome : (lookupId sid db.sessions).isSome := by rw [hs]; rfl
  unfold update_session
  rw [hs]
  dsimp only
  refine ⟨_, rfl, lookupId_updateId_self _ _ _ hsome, ?_, ?_, ?_, ?_, ?_, ?_,
    fun sid' h => lookupId_updateId_ne _ _ _ _ h⟩
  all_goals obtain ⟨e, p, n⟩ := u
  all_goals cases e <;> cases p <;> cases n <;> rfl

/-- Sample session for the C6 witness: ended at 60, 5 pages, notes "a". -/
def c6Session : ReadingSession :=
  { book_id := 1, start_time := 0, end_time := some 60,
    pages_read := some 5, notes := some "a", created_at := 0 }

/-- Sample store for the C6 witness. -/
def c6DB : DB := { books := [], sessions := [(9, c6Session)] }

/-- Sample payload for the C6 witness: `end_time` explicitly supplied as
null, `pages_read` omitted, `notes` supplied as "b". -/
def c6Update : SessionUpdate :=
  { end_time := some none, pages_read := none, notes := some (some "b") }

/-- C6 witness: the explicitly-null `end_time` is applied (becomes unset),
the omitted `pages_read` keeps its old value, and the supplied `notes`
payload replaces the old one. -/
theorem c6_witness :
    lookupId 9 c6DB.sessions = some c6Session ∧
    (∃ s', (update_session c6DB 9 c6Update).2 = some s' ∧
      lookupId 9 (update_session c6DB 9 c6Update).1.sessions = some s' ∧
      s'.end_time = c6Update.end_time.getD c6Session.end_time ∧
      s'.pages_read = c6Update.pages_read.getD c6Session.pages_read ∧
      s'.notes = c6Update.notes.getD c6Session.notes ∧
      s'.book_id = c6Session.book_id ∧
      s'.start_time = c6Session.start_time ∧
      s'.created_at = c6Session.created_at ∧
      ∀ sid', sid' ≠ 9 →
        lookupId sid' (update_session c6DB 9 c6Update).1.sessions =
          lookupId sid' c6DB.sessions) :=
  ⟨by decide, c6_update_session_is_sparse c6DB 9 c6Session c6Update (by decide)⟩

/-- C7: on the read schema, `is_active` is true iff `end_time` is unset;
`duration_minutes` is present exactly when `end_time` is set; when present
(and the session ends no earlier than it starts) it is the whole-minute
difference `(end_time - start_time) / 60` (Python's
`int(delta.total_seconds() / 60)` truncates toward zero, which equals the
floor for a non-negative delta); in particular `end_time = start_time + 90
minutes` yields `duration_minutes = 90`. -/
theorem c7_duration_minutes_and_is_active (s : ReadingSession) :
    (is_active s = true ↔ s.end_time = none) ∧
    (duration_minutes s = none ↔ s.end_time = none) ∧
    (∀ e, s.end_time = some e → s.start_time ≤ e →
      duration_minutes s = some ((e - s.start_time) / 60)) ∧
    (s.end_time = some (s.start_time + 90 * 60) → duration_minutes s = some 90) := by
  refine ⟨?_, ?_, ?_, ?_⟩
  · unfold is_active
    cases s.end_time <;> simp
  · unfold duration_minutes
    cases s.end_time <;> simp
  · intro e he hle
    unfold duration_minutes
    rw [he]
    exact congrArg some (Int.tdiv_eq_ediv (by omega) (by omega))
  · intro he
    unfold duration_minutes
    rw [he]
    dsimp only
    have h90 : s.start_time + 90 * 60 - s.start_time = 5400 := by ring
    rw [h90]
    decide

/-- Sample ended session for the C7 witness: starts at 100, ends 90 minutes
later. -/
def c7Session : ReadingSession :=
  { book_id := 1, start_time := 100, end_time := some (100 + 90 * 60),
    pages_read := some 5, notes := none, created_at := 0 }

/-- C7 witness: the 90-minute session has `duration_minutes = 90`. -/
theorem c7_witness :
    c7Session.end_time = some (c7Session.start_time + 90 * 60) ∧
    duration_minutes c7Session = some 90 :=
  ⟨by decide, (c7_duration_minutes_and_is_active c7Session).2.2.2 (by decide)⟩

/-- C9: updating an ended session with `end_time` explicitly supplied as
null sets `end_time` back to null, so the session becomes active again
(`is_active` true, `duration_minutes` absent): ended sessions can be
un-ended through the update path. -/
theorem c9_update_can_unend_session (db : DB) (sid : Int) (s : ReadingSession)
    (t : Int) (hs : lookupId sid db.sessions = some s) (_he : s.end_time = some t) :
    ∃ s', (update_session db sid
        { end_time := some none, pages_read := none, notes := none }).2 = some s' ∧
      lookupId sid (update_session db sid
        { end_time := some none, pages_read := none, notes := none }).1.sessions =
          some s' ∧
      s'.end_time = none ∧ is_active s' = true ∧ duration_minutes s' = none := by
  have hsome : (lookupId sid db.sessions).isSome := by rw [hs]; rfl
  unfold update_session
  rw [hs]
  dsimp only
  exact ⟨_, rfl, lookupId_updateId_self _ _ _ hsome, rfl, rfl, rfl⟩

/-- Sample ended session for the C9 witness. -/
def c9Session : ReadingSession :=
  { book_id := 1, start_time := 0, end_time := some 60,
    pages_read := some 5, notes := none, created_at := 0 }

/-- Sample store for the C9 witness. -/
def c9DB : DB := { books := [], sessions := [(3, c9Session)] }

/-- C9 witness: un-ending the ended sample session makes it active again. -/
theorem c9_witness :
    lookupId 3 c9DB.sessions = some c9Session ∧ c9Session.end_time = some 60 ∧
    (∃ s', (update_session c9DB 3
        { end_time := some none, pages_read := none, notes := none }).2 = some s' ∧
      lookupId 3 (update_session c9DB 3
        { end_time := some none, pages_read := none, notes := none }).1.sessions =
          some s' ∧
      s'.end_time = none ∧ is_active s' = true ∧ duration_minutes s' = none) :=
  ⟨by decide, by decide,
    c9_update_can_unend_session c9DB 3 c9Session 60 (by decide) (by decide)⟩

/-- C10: `completed` is absorbing under session creation: a session created
on a book whose status is `completed` leaves the status `completed` (the
`want_to_read` branch cannot fire, and whether or not the completion check
fires the status ends up `completed`), leaves `date_started` unchanged, and
leaves `date_finished` unchanged whenever it was already set. -/
theorem c10_completed_is_absorbing (db : DB) (newId createdAt book_id : Int)
    (b : Book) (d : SessionCreate)
    (hb : lookupId book_id db.books = some b)
    (hst : b.status = BookStatus.completed) :
    ∃ db' s, create_session db newId createdAt book_id d = some (db', s) ∧
      ∃ b', lookupId book_id db'.books = some b' ∧
        b'.status = BookStatus.completed ∧
        b'.date_started = b.date_started ∧
        (b.date_finished.isSome → b'.date_finished = b.date_finished) := by
  have hsome : (lookupId book_id db.books).isSome := by rw [hb]; rfl
  unfold create_session
  rw [hb]
  refine ⟨_, _, rfl, _, lookupId_updateId_self _ _ _ hsome, ?_, ?_, ?_⟩
  · simp [hst, apply_ite Book.status]
  · simp [hst, apply_ite Book.date_started]
  · intro h
    obtain ⟨x, hx⟩ := Option.isSome_iff_exists.mp h
    simp [hst, hx, apply_ite Book.date_finished]

/-- Sample completed book for the C10 witness: finished 200-page book with
both dates set and an overshooting `current_page`. -/
def c10Book : Book :=
  { title := "t", author := "a", isbn := none, total_pages := 200,
    current_page := 210, status := BookStatus.completed, date_added := 0,
    date_started := some 10, date_finished := some 20, rating := some 5,
    notes := none }

/-- Sample store for the C10 witness. -/
def c10DB : DB := { books := [(4, c10Book)], sessions := [] }

/-- C10 witness: another session on the completed sample book leaves it
completed with both dates untouched. -/
theorem c10_witness :
    lookupId 4 c10DB.books = some c10Book ∧
    c10Book.status = BookStatus.completed ∧
    (∃ db' s, create_session c10DB 1 0 4
        { start_time := 30, pages_read := 15, notes := none } = some (db', s) ∧
      ∃ b', lookupId 4 db'.books = some b' ∧
        b'.status = BookStatus.completed ∧
        b'.date_started = c10Book.date_started ∧
        (c10Book.date_finished.isSome → b'.date_finished = c10Book.date_finished)) :=
  ⟨by decide, by decide,
    c10_completed_is_absorbing c10DB 1 0 4 c10Book
      { start_time := 30, pages_read := 15, notes := none } (by decide) (by decide)⟩

/-- C4: the restart decision prunes `restart_attempts` to the last 60
seconds and appends the current time; it restarts (with the fixed 2-second
backoff recorded in the loop trace) exactly while at most
`MAX_RESTART_ATTEMPTS = 5` attempts lie in the window; and when six child
exits fall within a single 60-second span the loop performs five restarts,
gives up on the sixth decision — so a seventh launch never happens — exits,
and removes the PID file. -/
theorem c4_restart_circuit_breaker :
    (∀ a now, (should_restart a now).1 =
      a.filter (fun t => now - t < RESTART_WINDOW) ++ [now]) ∧
    (∀ a now, ((should_restart a now).2 = true ↔
      (a.filter (fun t => now - t < RESTART_WINDOW)).length + 1 ≤
        MAX_RESTART_ATTEMPTS)) ∧
    (∀ t1 t2 t3 t4 t5 t6 : Int, t1 ≤ t2 → t2 ≤ t3 → t3 ≤ t4 → t4 ≤ t5 →
      t5 ≤ t6 → t6 - t1 < RESTART_WINDOW →
      run_monitoring_loop [] [t1, t2, t3, t4, t5, t6] =
        ⟨[LoopStep.restartAfter t1 2, LoopStep.restartAfter t2 2,
          LoopStep.restartAfter t3 2, LoopStep.restartAfter t4 2,
          LoopStep.restartAfter t5 2, LoopStep.giveUp t6], true⟩) := by
  refine ⟨fun a now => rfl, ?_, ?_⟩
  · intro a now
    unfold should_restart
    dsimp only
    by_cases h : ((a.filter (fun t => now - t < RESTART_WINDOW)) ++ [now]).length >
        MAX_RESTART_ATTEMPTS
    · rw [if_pos h]
      simp only [List.length_append, List.length_cons, List.length_nil] at h
      constructor
      · intro hc
        exact Bool.noConfusion hc
      · intro hc
        exact absurd hc (by omega)
    · rw [if_neg h]
      simp only [List.length_append, List.length_cons, List.length_nil] at h
      constructor
      · intro _
        omega
      · intro _
        trivial
  · intro t1 t2 t3 t4 t5 t6 h12 h23 h34 h45 h56 hw
    have hw' : t6 - t1 < 60 := by simpa [RESTART_WINDOW] using hw
    have c21 : t2 - t1 < RESTART_WINDOW := by simp only [RESTART_WINDOW]; omega
    have c31 : t3 - t1 < RESTART_WINDOW := by simp only [RESTART_WINDOW]; omega
    have c32 : t3 - t2 < RESTART_WINDOW := by simp only [RESTART_WINDOW]; omega
    have c41 : t4 - t1 < RESTART_WINDOW := by simp only [RESTART_WINDOW]; omega
    have c42 : t4 - t2 < RESTART_WINDOW := by simp only [RESTART_WINDOW]; omega
    have c43 : t4 - t3 < RESTART_WINDOW := by simp only [RESTART_WINDOW]; omega
    have c51 : t5 - t1 < RESTART_WINDOW := by simp only [RESTART_WINDOW]; omega
    have c52 : t5 - t2 < RESTART_WINDOW := by simp only [RESTART_WINDOW]; omega
    have c53 : t5 - t3 < RESTART_WINDOW := by simp only [RESTART_WINDOW]; omega
    have c54 : t5 - t4 < RESTART_WINDOW := by simp only [RESTART_WINDOW]; omega
    have c61 : t6 - t1 < RESTART_WINDOW := by simp only [RESTART_WINDOW]; omega
    have c62 : t6 - t2 < RESTART_WINDOW := by simp only [RESTART_WINDOW]; omega
    have c63 : t6 - t3 < RESTART_WINDOW := by simp only [RESTART_WINDOW]; omega
    have c64 : t6 - t4 < RESTART_WINDOW := by simp only [RESTART_WINDOW]; omega
    have c65 : t6 - t5 < RESTART_WINDOW := by simp only [RESTART_WINDOW]; omega
    simp [run_monitoring_loop, should_restart, MAX_RESTART_ATTEMPTS,
      c21, c31, c32, c41, c42, c43, c51, c52, c53, c54, c61, c62, c63, c64, c65]

/-- C4 witness: six crashes at seconds 0..5 give five restarts, then the
breaker fires on the sixth decision, the loop exits and the PID file is
removed. -/
theorem c4_witness :
    ((0 : Int) ≤ 1) ∧ ((1 : Int) ≤ 2) ∧ ((2 : Int) ≤ 3) ∧ ((3 : Int) ≤ 4) ∧
    ((4 : Int) ≤ 5) ∧ ((5 : Int) - 0 < RESTART_WINDOW) ∧
    run_monitoring_loop [] [0, 1, 2, 3, 4, 5] =
      ⟨[LoopStep.restartAfter 0 2, LoopStep.restartAfter 1 2,
        LoopStep.restartAfter 2 2, LoopStep.restartAfter 3 2,
        LoopStep.restartAfter 4 2, LoopStep.giveUp 5], true⟩ :=
  ⟨by decide, by decide, by decide, by decide, by decide, by decide,
    c4_restart_circuit_breaker.2.2 0 1 2 3 4 5 (by decide) (by decide)
      (by decide) (by decide) (by decide) (by decide)⟩

/-- C8: when the PID file names a process that is not alive, `stop_daemon`
reports the stale PID, removes the PID file, and sends no signal to any
process. -/
theorem c8_stop_daemon_stale (w : StopWorld) (pid : Int)
    (hfile : w.pidFile = some pid) (h0 : pid ≠ 0) (hdead : w.aliveNow = false) :
    stop_daemon w = (StopReport.stale pid, none, []) := by
  unfold stop_daemon
  rw [hfile]
  dsimp only
  rw [if_neg h0, if_pos (by simp [hdead])]

/-- Sample world for the C8 witness: PID file records process 5, which is
dead at every probe. -/
def c8World : StopWorld :=
  { pidFile := some 5, aliveNow := false, aliveAtPoll := fun _ => false,
    aliveAfterKill := false }

/-- C8 witness: stopping the sample stale world reports the stale PID,
clears the PID file, and sends no signal. -/
theorem c8_witness :
    c8World.pidFile = some 5 ∧ (5 : Int) ≠ 0 ∧ c8World.aliveNow = false ∧
    stop_daemon c8World = (StopReport.stale 5, none, []) :=
  ⟨rfl, by decide, rfl, c8_stop_daemon_stale c8World 5 rfl (by decide) rfl⟩

end ReadingTracker
